import Mathlib

/-!
A formal model of the glsl-quasiquote crate (src/lib.rs): the GLSL abstract
syntax tree consumed by the tokenizer, the constructor-expression output
language that the quote! macro builds, the tokenizer itself, and the two
procedural-macro entry points glsl! and glsl_str!.

Rust-side conventions of the embedding:

* A TokenStream produced by quote! is modelled by the inductive CExpr, a deep
  embedding of the Rust expressions the tokenizer emits: literal tokens, bare
  paths (nullary enum constructors), calls path(args), struct literals,
  vec![...] lists and tuples.
* quote! interpolation of a Rust String (the glsl crate's Identifier and
  TypeName are plain Strings, as witnessed by the pervasive
  String::from(#name) pattern in lib.rs) appends a string literal token
  (Literal::string); this is modelled by CExpr.strLit.
* quote! interpolation of Box<T> delegates to the inner T: lib.rs declares
  only mod quoted_option, so the Quoted impl of src/quoted.rs that would
  print Box::new(..) is never compiled.  Hence Box::new(tokenize_x(e)) in the
  source contributes the inner tokens only, and the embedding drops the
  transparent Box.
* opt.as_ref().map(f).quote() (trait QuotedOption, src/quoted_option.rs) is
  quoteOpt applied to Option.map f.
* Integer payloads are interpolated as (suffixed) numeric literals; float
  payloads are opaque to every claim and are modelled by the text of their
  literal.
-/

namespace Glsl

/-- Output language: the shapes of Rust expressions emitted by the tokenizer
through quote!, at token level. -/
inductive CExpr where
  | natLit (n : Nat)
  | intLit (i : Int)
  | floatLit (s : String)
  | doubleLit (s : String)
  | boolLit (b : Bool)
  | strLit (s : String)
  | identE (s : String)
  | pathE (p : List String)
  | callE (p : List String) (args : List CExpr)
  | structE (p : List String) (fields : List (String × CExpr))
  | vecE (elems : List CExpr)
  | tupleE (elems : List CExpr)

/-- Option quoting from src/quoted_option.rs: Some(#x) or None. -/
def quoteOpt : Option CExpr → CExpr
  | some x => CExpr.callE ["Some"] [x]
  | none => CExpr.pathE ["None"]

/-- glsl::syntax::PrecisionQualifier. -/
inductive PrecisionQualifier where
  | High | Medium | Low
deriving DecidableEq

/-- glsl::syntax::InterpolationQualifier. -/
inductive InterpolationQualifier where
  | Smooth | Flat | NoPerspective
deriving DecidableEq

/-- glsl::syntax::UnaryOp. -/
inductive UnaryOp where
  | Inc | Dec | Add | Minus | Not | Complement
deriving DecidableEq

/-- glsl::syntax::BinaryOp. -/
inductive BinaryOp where
  | Or | Xor | And | BitOr | BitXor | BitAnd | Equal | NonEqual
  | LT | GT | LTE | GTE | LShift | RShift | Add | Sub | Mult | Div | Mod
deriving DecidableEq

/-- glsl::syntax::AssignmentOp. -/
inductive AssignmentOp where
  | Equal | Mult | Div | Mod | Add | Sub | LShift | RShift | And | Xor | Or
deriving DecidableEq

/-- glsl::syntax::StorageQualifier (Subroutine carries a list of type names,
which are plain strings). -/
inductive StorageQualifier where
  | Const | InOut | In | Out | Centroid | Patch | Sample | Uniform
  | Buffer | Shared | Coherent | Volatile | Restrict | ReadOnly | WriteOnly
  | Subroutine (names : List String)

/-- glsl::syntax::PreprocessorVersionProfile. -/
inductive PreprocessorVersionProfile where
  | Core | Compatibility | ES
deriving DecidableEq

/-- glsl::syntax::PreprocessorExtensionName. -/
inductive PreprocessorExtensionName where
  | All
  | Specific (n : String)
deriving DecidableEq

/-- glsl::syntax::PreprocessorExtensionBehavior. -/
inductive PreprocessorExtensionBehavior where
  | Require | Enable | Warn | Disable
deriving DecidableEq

/-- glsl::syntax::PreprocessorVersion (version is a u16). -/
structure PreprocessorVersion where
  version : Nat
  profile : Option PreprocessorVersionProfile
deriving DecidableEq

/-- glsl::syntax::PreprocessorExtension. -/
structure PreprocessorExtension where
  name : PreprocessorExtensionName
  behavior : Option PreprocessorExtensionBehavior
deriving DecidableEq

/-- glsl::syntax::Preprocessor. -/
inductive Preprocessor where
  | Version (pv : PreprocessorVersion)
  | Extension (pe : PreprocessorExtension)
deriving DecidableEq

/-- lib.rs tokenize_precision_qualifier. -/
def tokenize_precision_qualifier : PrecisionQualifier → CExpr
  | .High => CExpr.pathE ["glsl", "syntax", "PrecisionQualifier", "High"]
  | .Medium => CExpr.pathE ["glsl", "syntax", "PrecisionQualifier", "Medium"]
  | .Low => CExpr.pathE ["glsl", "syntax", "PrecisionQualifier", "Low"]

/-- lib.rs tokenize_interpolation_qualifier. -/
def tokenize_interpolation_qualifier : InterpolationQualifier → CExpr
  | .Smooth => CExpr.pathE ["glsl", "syntax", "InterpolationQualifier", "Smooth"]
  | .Flat => CExpr.pathE ["glsl", "syntax", "InterpolationQualifier", "Flat"]
  | .NoPerspective => CExpr.pathE ["glsl", "syntax", "InterpolationQualifier", "NoPerspective"]

/-- lib.rs tokenize_unary_op. -/
def tokenize_unary_op : UnaryOp → CExpr
  | .Inc => CExpr.pathE ["glsl", "syntax", "UnaryOp", "Inc"]
  | .Dec => CExpr.pathE ["glsl", "syntax", "UnaryOp", "Dec"]
  | .Add => CExpr.pathE ["glsl", "syntax", "UnaryOp", "Add"]
  | .Minus => CExpr.pathE ["glsl", "syntax", "UnaryOp", "Minus"]
  | .Not => CExpr.pathE ["glsl", "syntax", "UnaryOp", "Not"]
  | .Complement => CExpr.pathE ["glsl", "syntax", "UnaryOp", "Complement"]

/-- lib.rs tokenize_binary_op. -/
def tokenize_binary_op : BinaryOp → CExpr
  | .Or => CExpr.pathE ["glsl", "syntax", "BinaryOp", "Or"]
  | .Xor => CExpr.pathE ["glsl", "syntax", "BinaryOp", "Xor"]
  | .And => CExpr.pathE ["glsl", "syntax", "BinaryOp", "And"]
  | .BitOr => CExpr.pathE ["glsl", "syntax", "BinaryOp", "BitOr"]
  | .BitXor => CExpr.pathE ["glsl", "syntax", "BinaryOp", "BitXor"]
  | .BitAnd => CExpr.pathE ["glsl", "syntax", "BinaryOp", "BitAnd"]
  | .Equal => CExpr.pathE ["glsl", "syntax", "BinaryOp", "Equal"]
  | .NonEqual => CExpr.pathE ["glsl", "syntax", "BinaryOp", "NonEqual"]
  | .LT => CExpr.pathE ["glsl", "syntax", "BinaryOp", "LT"]
  | .GT => CExpr.pathE ["glsl", "syntax", "BinaryOp", "GT"]
  | .LTE => CExpr.pathE ["glsl", "syntax", "BinaryOp", "LTE"]
  | .GTE => CExpr.pathE ["glsl", "syntax", "BinaryOp", "GTE"]
  | .LShift => CExpr.pathE ["glsl", "syntax", "BinaryOp", "LShift"]
  | .RShift => CExpr.pathE ["glsl", "syntax", "BinaryOp", "RShift"]
  | .Add => CExpr.pathE ["glsl", "syntax", "BinaryOp", "Add"]
  | .Sub => CExpr.pathE ["glsl", "syntax", "BinaryOp", "Sub"]
  | .Mult => CExpr.pathE ["glsl", "syntax", "BinaryOp", "Mult"]
  | .Div => CExpr.pathE ["glsl", "syntax", "BinaryOp", "Div"]
  | .Mod => CExpr.pathE ["glsl", "syntax", "BinaryOp", "Mod"]

/-- lib.rs tokenize_assignment_op.  Note the Or arm of the source emits the
unqualified path AssignmentOp::Or, unlike every other arm. -/
def tokenize_assignment_op : AssignmentOp → CExpr
  | .Equal => CExpr.pathE ["glsl", "syntax", "AssignmentOp", "Equal"]
  | .Mult => CExpr.pathE ["glsl", "syntax", "AssignmentOp", "Mult"]
  | .Div => CExpr.pathE ["glsl", "syntax", "AssignmentOp", "Div"]
  | .Mod => CExpr.pathE ["glsl", "syntax", "AssignmentOp", "Mod"]
  | .Add => CExpr.pathE ["glsl", "syntax", "AssignmentOp", "Add"]
  | .Sub => CExpr.pathE ["glsl", "syntax", "AssignmentOp", "Sub"]
  | .LShift => CExpr.pathE ["glsl", "syntax", "AssignmentOp", "LShift"]
  | .RShift => CExpr.pathE ["glsl", "syntax", "AssignmentOp", "RShift"]
  | .And => CExpr.pathE ["glsl", "syntax", "AssignmentOp", "And"]
  | .Xor => CExpr.pathE ["glsl", "syntax", "AssignmentOp", "Xor"]
  | .Or => CExpr.pathE ["AssignmentOp", "Or"]

/-- lib.rs tokenize_storage_qualifier.  The Subroutine arm of the source
emits the unqualified path StorageQualifier::Subroutine. -/
def tokenize_storage_qualifier : StorageQualifier → CExpr
  | .Const => CExpr.pathE ["glsl", "syntax", "StorageQualifier", "Const"]
  | .InOut => CExpr.pathE ["glsl", "syntax", "StorageQualifier", "InOut"]
  | .In => CExpr.pathE ["glsl", "syntax", "StorageQualifier", "In"]
  | .Out => CExpr.pathE ["glsl", "syntax", "StorageQualifier", "Out"]
  | .Centroid => CExpr.pathE ["glsl", "syntax", "StorageQualifier", "Centroid"]
  | .Patch => CExpr.pathE ["glsl", "syntax", "StorageQualifier", "Patch"]
  | .Sample => CExpr.pathE ["glsl", "syntax", "StorageQualifier", "Sample"]
  | .Uniform => CExpr.pathE ["glsl", "syntax", "StorageQualifier", "Uniform"]
  | .Buffer => CExpr.pathE ["glsl", "syntax", "StorageQualifier", "Buffer"]
  | .Shared => CExpr.pathE ["glsl", "syntax", "StorageQualifier", "Shared"]
  | .Coherent => CExpr.pathE ["glsl", "syntax", "StorageQualifier", "Coherent"]
  | .Volatile => CExpr.pathE ["glsl", "syntax", "StorageQualifier", "Volatile"]
  | .Restrict => CExpr.pathE ["glsl", "syntax", "StorageQualifier", "Restrict"]
  | .ReadOnly => CExpr.pathE ["glsl", "syntax", "StorageQualifier", "ReadOnly"]
  | .WriteOnly => CExpr.pathE ["glsl", "syntax", "StorageQualifier", "WriteOnly"]
  | .Subroutine ns =>
      CExpr.callE ["StorageQualifier", "Subroutine"]
        [CExpr.vecE (ns.map fun n => CExpr.callE ["String", "from"] [CExpr.strLit n])]

/-- lib.rs tokenize_preprocessor_version_profile. -/
def tokenize_preprocessor_version_profile : PreprocessorVersionProfile → CExpr
  | .Core => CExpr.pathE ["glsl", "syntax", "PreprocessorVersionProfile", "Core"]
  | .Compatibility => CExpr.pathE ["glsl", "syntax", "PreprocessorVersionProfile", "Compatibility"]
  | .ES => CExpr.pathE ["glsl", "syntax", "PreprocessorVersionProfile", "ES"]

/-- lib.rs tokenize_preprocessor_version. -/
def tokenize_preprocessor_version (pv : PreprocessorVersion) : CExpr :=
  CExpr.structE ["glsl", "syntax", "PreprocessorVersion"]
    [("version", CExpr.natLit pv.version),
     ("profile", quoteOpt (pv.profile.map tokenize_preprocessor_version_profile))]

/-- lib.rs tokenize_preprocessor_extension_name. -/
def tokenize_preprocessor_extension_name : PreprocessorExtensionName → CExpr
  | .All => CExpr.pathE ["glsl", "syntax", "PreprocessorExtensionName", "All"]
  | .Specific n =>
      CExpr.callE ["glsl", "syntax", "PreprocessorExtensionName", "Specific"]
        [CExpr.callE ["String", "from"] [CExpr.strLit n]]

/-- lib.rs tokenize_preprocessor_extension_behavior. -/
def tokenize_preprocessor_extension_behavior : PreprocessorExtensionBehavior → CExpr
  | .Require => CExpr.pathE ["glsl", "syntax", "PreprocessorExtensionBehavior", "Require"]
  | .Enable => CExpr.pathE ["glsl", "syntax", "PreprocessorExtensionBehavior", "Enable"]
  | .Warn => CExpr.pathE ["glsl", "syntax", "PreprocessorExtensionBehavior", "Warn"]
  | .Disable => CExpr.pathE ["glsl", "syntax", "PreprocessorExtensionBehavior", "Disable"]

/-- lib.rs tokenize_preprocessor_extension.  The source wraps the already
tokenized name constructor in String::from: it emits
name: String::from(#name) where #name is the token stream produced by
tokenize_preprocessor_extension_name. -/
def tokenize_preprocessor_extension (pe : PreprocessorExtension) : CExpr :=
  CExpr.structE ["glsl", "syntax", "PreprocessorExtension"]
    [("name", CExpr.callE ["String", "from"] [tokenize_preprocessor_extension_name pe.name]),
     ("behavior", quoteOpt (pe.behavior.map tokenize_preprocessor_extension_behavior))]

/-- lib.rs tokenize_preprocessor. -/
def tokenize_preprocessor : Preprocessor → CExpr
  | .Version pv =>
      CExpr.callE ["glsl", "syntax", "Preprocessor", "Version"] [tokenize_preprocessor_version pv]
  | .Extension pe =>
      CExpr.callE ["glsl", "syntax", "Preprocessor", "Extension"] [tokenize_preprocessor_extension pe]

mutual
/-- glsl::syntax::Expr: the sixteen expression variants matched by lib.rs
tokenize_expr (float and double payloads are modelled by their literal
text). -/
inductive Expr where
  | Variable (i : String)
  | IntConst (x : Int)
  | UIntConst (x : Nat)
  | BoolConst (x : Bool)
  | FloatConst (x : String)
  | DoubleConst (x : String)
  | Unary (op : UnaryOp) (e : Expr)
  | Binary (op : BinaryOp) (l : Expr) (r : Expr)
  | Ternary (c : Expr) (s : Expr) (e : Expr)
  | Assignment (v : Expr) (op : AssignmentOp) (e : Expr)
  | Bracket (e : Expr) (a : ArraySpecifier)
  | FunCall (fi : FunIdentifier) (args : List Expr)
  | Dot (e : Expr) (i : String)
  | PostInc (e : Expr)
  | PostDec (e : Expr)
  | Comma (a : Expr) (b : Expr)

/-- glsl::syntax::ArraySpecifier. -/
inductive ArraySpecifier where
  | Unsized
  | ExplicitlySized (e : Expr)

/-- glsl::syntax::FunIdentifier. -/
inductive FunIdentifier where
  | Identifier (n : String)
  | Expr (e : Expr)
end

mutual
/-- lib.rs tokenize_expr.  Box::new(..) wrappers of the source vanish in the
emitted tokens because Box interpolates transparently. -/
def tokenize_expr : Expr → CExpr
  | .Variable i => CExpr.callE ["glsl", "syntax", "Expr", "Variable"] [CExpr.strLit i]
  | .IntConst x => CExpr.callE ["glsl", "syntax", "Expr", "IntConst"] [CExpr.intLit x]
  | .UIntConst x => CExpr.callE ["glsl", "syntax", "Expr", "UIntConst"] [CExpr.natLit x]
  | .BoolConst x => CExpr.callE ["glsl", "syntax", "Expr", "BoolConst"] [CExpr.boolLit x]
  | .FloatConst x => CExpr.callE ["glsl", "syntax", "Expr", "FloatConst"] [CExpr.floatLit x]
  | .DoubleConst x => CExpr.callE ["glsl", "syntax", "Expr", "DoubleConst"] [CExpr.doubleLit x]
  | .Unary op e =>
      CExpr.callE ["glsl", "syntax", "Expr", "Unary"] [tokenize_unary_op op, tokenize_expr e]
  | .Binary op l r =>
      CExpr.callE ["glsl", "syntax", "Expr", "Binary"]
        [tokenize_binary_op op, tokenize_expr l, tokenize_expr r]
  | .Ternary c s e =>
      CExpr.callE ["glsl", "syntax", "Expr", "Ternary"]
        [tokenize_expr c, tokenize_expr s, tokenize_expr e]
  | .Assignment v op e =>
      CExpr.callE ["glsl", "syntax", "Expr", "Assignment"]
        [tokenize_expr v, tokenize_assignment_op op, tokenize_expr e]
  | .Bracket e a =>
      CExpr.callE ["glsl", "syntax", "Expr", "Bracket"] [tokenize_expr e, tokenize_array_spec a]
  | .FunCall fi args =>
      CExpr.callE ["glsl", "syntax", "Expr", "FunCall"]
        [tokenize_function_identifier fi, CExpr.vecE (tokenize_expr_list args)]
  | .Dot e i => CExpr.callE ["glsl", "syntax", "Expr", "Dot"] [tokenize_expr e, CExpr.strLit i]
  | .PostInc e => CExpr.callE ["glsl", "syntax", "Expr", "PostInc"] [tokenize_expr e]
  | .PostDec e => CExpr.callE ["glsl", "syntax", "Expr", "PostDec"] [tokenize_expr e]
  | .Comma a b =>
      CExpr.callE ["glsl", "syntax", "Expr", "Comma"] [tokenize_expr a, tokenize_expr b]

/-- Elementwise tokenization of a FunCall argument list
(args.iter().map(tokenize_expr) in the source). -/
def tokenize_expr_list : List Expr → List CExpr
  | [] => []
  | e :: es => tokenize_expr e :: tokenize_expr_list es

/-- lib.rs tokenize_array_spec. -/
def tokenize_array_spec : ArraySpecifier → CExpr
  | .Unsized => CExpr.pathE ["glsl", "syntax", "ArraySpecifier", "Unsized"]
  | .ExplicitlySized e =>
      CExpr.callE ["glsl", "syntax", "ArraySpecifier", "ExplicitlySized"] [tokenize_expr e]

/-- lib.rs tokenize_function_identifier. -/
def tokenize_function_identifier : FunIdentifier → CExpr
  | .Identifier n =>
      CExpr.callE ["glsl", "syntax", "FunIdentifier", "Identifier"]
        [CExpr.callE ["String", "from"] [CExpr.strLit n]]
  | .Expr e => CExpr.callE ["glsl", "syntax", "FunIdentifier", "Expr"] [tokenize_expr e]
end

/-- glsl::syntax::LayoutQualifierSpec. -/
inductive LayoutQualifierSpec where
  | Identifier (i : String) (e : Option Expr)
  | Shared

/-- glsl::syntax::LayoutQualifier. -/
structure LayoutQualifier where
  ids : List LayoutQualifierSpec

/-- glsl::syntax::TypeQualifierSpec. -/
inductive TypeQualifierSpec where
  | Storage (s : StorageQualifier)
  | Layout (l : LayoutQualifier)
  | Precision (p : PrecisionQualifier)
  | Interpolation (i : InterpolationQualifier)
  | Invariant
  | Precise

/-- glsl::syntax::TypeQualifier. -/
structure TypeQualifier where
  qualifiers : List TypeQualifierSpec

/-- lib.rs tokenize_layout_qualifier_spec. -/
def tokenize_layout_qualifier_spec : LayoutQualifierSpec → CExpr
  | .Identifier i e =>
      CExpr.callE ["glsl", "syntax", "LayoutQualifierSpec", "Identifier"]
        [CExpr.strLit i, quoteOpt (e.map tokenize_expr)]
  | .Shared => CExpr.pathE ["glsl", "syntax", "LayoutQualifierSpec", "Shared"]

/-- lib.rs tokenize_layout_qualifier. -/
def tokenize_layout_qualifier (l : LayoutQualifier) : CExpr :=
  CExpr.structE ["glsl", "syntax", "LayoutQualifier"]
    [("ids", CExpr.vecE (l.ids.map tokenize_layout_qualifier_spec))]

/-- lib.rs tokenize_type_qualifier_spec. -/
def tokenize_type_qualifier_spec : TypeQualifierSpec → CExpr
  | .Storage s =>
      CExpr.callE ["glsl", "syntax", "TypeQualifierSpec", "Storage"] [tokenize_storage_qualifier s]
  | .Layout l =>
      CExpr.callE ["glsl", "syntax", "TypeQualifierSpec", "Layout"] [tokenize_layout_qualifier l]
  | .Precision p =>
      CExpr.callE ["glsl", "syntax", "TypeQualifierSpec", "Precision"]
        [tokenize_precision_qualifier p]
  | .Interpolation i =>
      CExpr.callE ["glsl", "syntax", "TypeQualifierSpec", "Interpolation"]
        [tokenize_interpolation_qualifier i]
  | .Invariant => CExpr.pathE ["glsl", "syntax", "TypeQualifierSpec", "Invariant"]
  | .Precise => CExpr.pathE ["glsl", "syntax", "TypeQualifierSpec", "Precise"]

/-- lib.rs tokenize_type_qualifier. -/
def tokenize_type_qualifier (q : TypeQualifier) : CExpr :=
  CExpr.structE ["glsl", "syntax", "TypeQualifier"]
    [("qualifiers", CExpr.vecE (q.qualifiers.map tokenize_type_qualifier_spec))]

mutual
/-- glsl::syntax::TypeSpecifierNonArray: the closed built-in catalog plus the
two open variants Struct and TypeName (a TypeName is a plain String). -/
inductive TypeSpecifierNonArray where
  | Void
  | Bool
  | Int
  | UInt
  | Float
  | Double
  | Vec2
  | Vec3
  | Vec4
  | DVec2
  | DVec3
  | DVec4
  | BVec2
  | BVec3
  | BVec4
  | IVec2
  | IVec3
  | IVec4
  | UVec2
  | UVec3
  | UVec4
  | Mat2
  | Mat3
  | Mat4
  | Mat23
  | Mat24
  | Mat32
  | Mat34
  | Mat42
  | Mat43
  | DMat2
  | DMat3
  | DMat4
  | DMat23
  | DMat24
  | DMat32
  | DMat34
  | DMat42
  | DMat43
  | Sampler1D
  | Image1D
  | Sampler2D
  | Image2D
  | Sampler3D
  | Image3D
  | SamplerCube
  | ImageCube
  | Sampler2DRect
  | Image2DRect
  | Sampler1DArray
  | Image1DArray
  | Sampler2DArray
  | Image2DArray
  | SamplerBuffer
  | ImageBuffer
  | Sampler2DMS
  | Image2DMS
  | Sampler2DMSArray
  | Image2DMSArray
  | SamplerCubeArray
  | ImageCubeArray
  | Sampler1DShadow
  | Sampler2DShadow
  | Sampler2DRectShadow
  | Sampler1DArrayShadow
  | Sampler2DArrayShadow
  | SamplerCubeShadow
  | SamplerCubeArrayShadow
  | ISampler1D
  | IImage1D
  | ISampler2D
  | IImage2D
  | ISampler3D
  | IImage3D
  | ISamplerCube
  | IImageCube
  | ISampler2DRect
  | IImage2DRect
  | ISampler1DArray
  | IImage1DArray
  | ISampler2DArray
  | IImage2DArray
  | ISamplerBuffer
  | IImageBuffer
  | ISampler2DMS
  | IImage2DMS
  | ISampler2DMSArray
  | IImage2DMSArray
  | ISamplerCubeArray
  | IImageCubeArray
  | AtomicUInt
  | USampler1D
  | UImage1D
  | USampler2D
  | UImage2D
  | USampler3D
  | UImage3D
  | USamplerCube
  | UImageCube
  | USampler2DRect
  | UImage2DRect
  | USampler1DArray
  | UImage1DArray
  | USampler2DArray
  | UImage2DArray
  | USamplerBuffer
  | UImageBuffer
  | USampler2DMS
  | UImage2DMS
  | USampler2DMSArray
  | UImage2DMSArray
  | USamplerCubeArray
  | UImageCubeArray
  | Struct (s : StructSpecifier)
  | TypeName (tn : String)

/-- glsl::syntax::TypeSpecifier. -/
inductive TypeSpecifier where
  | mk (ty : TypeSpecifierNonArray) (array_specifier : Option ArraySpecifier)

/-- glsl::syntax::StructSpecifier. -/
inductive StructSpecifier where
  | mk (name : String) (fields : List StructFieldSpecifier)

/-- glsl::syntax::StructFieldSpecifier (each identifier is a pair of the
identifier text and an optional array specifier). -/
inductive StructFieldSpecifier where
  | mk (qualifier : Option TypeQualifier) (ty : TypeSpecifier)
      (identifiers : List (String × Option ArraySpecifier))
end

/-- Field projection for TypeSpecifier. -/
def TypeSpecifier.ty : TypeSpecifier → TypeSpecifierNonArray
  | .mk t _ => t

/-- Field projection for TypeSpecifier. -/
def TypeSpecifier.array_specifier : TypeSpecifier → Option ArraySpecifier
  | .mk _ a => a

/-- Field projection for StructSpecifier. -/
def StructSpecifier.name : StructSpecifier → String
  | .mk n _ => n

/-- Field projection for StructSpecifier. -/
def StructSpecifier.fields : StructSpecifier → List StructFieldSpecifier
  | .mk _ f => f

/-- Field projection for StructFieldSpecifier. -/
def StructFieldSpecifier.qualifier : StructFieldSpecifier → Option TypeQualifier
  | .mk q _ _ => q

/-- Field projection for StructFieldSpecifier. -/
def StructFieldSpecifier.ty : StructFieldSpecifier → TypeSpecifier
  | .mk _ t _ => t

/-- Field projection for StructFieldSpecifier. -/
def StructFieldSpecifier.identifiers :
    StructFieldSpecifier → List (String × Option ArraySpecifier)
  | .mk _ _ i => i

/-- lib.rs tokenize_arrayed_identifier: the pair (#i, #arr_spec). -/
def tokenize_arrayed_identifier (i : String) (arr_spec : Option ArraySpecifier) : CExpr :=
  CExpr.tupleE [CExpr.strLit i, quoteOpt (arr_spec.map tokenize_array_spec)]

mutual
/-- lib.rs tokenize_type_specifier_non_array: one explicit arm per built-in
catalog entry (a fixed nullary constructor each), the recursive Struct arm,
and the TypeName arm, which emits quote!(#tn) for the plain String tn, that
is, a bare string literal token. -/
def tokenize_type_specifier_non_array : TypeSpecifierNonArray → CExpr
  | .Void => CExpr.pathE ["glsl", "syntax", "TypeSpecifierNonArray", "Void"]
  | .Bool => CExpr.pathE ["glsl", "syntax", "TypeSpecifierNonArray", "Bool"]
  | .Int => CExpr.pathE ["glsl", "syntax", "TypeSpecifierNonArray", "Int"]
  | .UInt => CExpr.pathE ["glsl", "syntax", "TypeSpecifierNonArray", "UInt"]
  | .Float => CExpr.pathE ["glsl", "syntax", "TypeSpecifierNonArray", "Float"]
  | .Double => CExpr.pathE ["glsl", "syntax", "TypeSpecifierNonArray", "Double"]
  | .Vec2 => CExpr.pathE ["glsl", "syntax", "TypeSpecifierNonArray", "Vec2"]
  | .Vec3 => CExpr.pathE ["glsl", "syntax", "TypeSpecifierNonArray", "Vec3"]
  | .Vec4 => CExpr.pathE ["glsl", "syntax", "TypeSpecifierNonArray", "Vec4"]
  | .DVec2 => CExpr.pathE ["glsl", "syntax", "TypeSpecifierNonArray", "DVec2"]
  | .DVec3 => CExpr.pathE ["glsl", "syntax", "TypeSpecifierNonArray", "DVec3"]
  | .DVec4 => CExpr.pathE ["glsl", "syntax", "TypeSpecifierNonArray", "DVec4"]
  | .BVec2 => CExpr.pathE ["glsl", "syntax", "TypeSpecifierNonArray", "BVec2"]
  | .BVec3 => CExpr.pathE ["glsl", "syntax", "TypeSpecifierNonArray", "BVec3"]
  | .BVec4 => CExpr.pathE ["glsl", "syntax", "TypeSpecifierNonArray", "BVec4"]
  | .IVec2 => CExpr.pathE ["glsl", "syntax", "TypeSpecifierNonArray", "IVec2"]
  | .IVec3 => CExpr.pathE ["glsl", "syntax", "TypeSpecifierNonArray", "IVec3"]
  | .IVec4 => CExpr.pathE ["glsl", "syntax", "TypeSpecifierNonArray", "IVec4"]
  | .UVec2 => CExpr.pathE ["glsl", "syntax", "TypeSpecifierNonArray", "UVec2"]
  | .UVec3 => CExpr.pathE ["glsl", "syntax", "TypeSpecifierNonArray", "UVec3"]
  | .UVec4 => CExpr.pathE ["glsl", "syntax", "TypeSpecifierNonArray", "UVec4"]
  | .Mat2 => CExpr.pathE ["glsl", "syntax", "TypeSpecifierNonArray", "Mat2"]
  | .Mat3 => CExpr.pathE ["glsl", "syntax", "TypeSpecifierNonArray", "Mat3"]
  | .Mat4 => CExpr.pathE ["glsl", "syntax", "TypeSpecifierNonArray", "Mat4"]
  | .Mat23 => CExpr.pathE ["glsl", "syntax", "TypeSpecifierNonArray", "Mat23"]
  | .Mat24 => CExpr.pathE ["glsl", "syntax", "TypeSpecifierNonArray", "Mat24"]
  | .Mat32 => CExpr.pathE ["glsl", "syntax", "TypeSpecifierNonArray", "Mat32"]
  | .Mat34 => CExpr.pathE ["glsl", "syntax", "TypeSpecifierNonArray", "Mat34"]
  | .Mat42 => CExpr.pathE ["glsl", "syntax", "TypeSpecifierNonArray", "Mat42"]
  | .Mat43 => CExpr.pathE ["glsl", "syntax", "TypeSpecifierNonArray", "Mat43"]
  | .DMat2 => CExpr.pathE ["glsl", "syntax", "TypeSpecifierNonArray", "DMat2"]
  | .DMat3 => CExpr.pathE ["glsl", "syntax", "TypeSpecifierNonArray", "DMat3"]
  | .DMat4 => CExpr.pathE ["glsl", "syntax", "TypeSpecifierNonArray", "DMat4"]
  | .DMat23 => CExpr.pathE ["glsl", "syntax", "TypeSpecifierNonArray", "DMat23"]
  | .DMat24 => CExpr.pathE ["glsl", "syntax", "TypeSpecifierNonArray", "DMat24"]
  | .DMat32 => CExpr.pathE ["glsl", "syntax", "TypeSpecifierNonArray", "DMat32"]
  | .DMat34 => CExpr.pathE ["glsl", "syntax", "TypeSpecifierNonArray", "DMat34"]
  | .DMat42 => CExpr.pathE ["glsl", "syntax", "TypeSpecifierNonArray", "DMat42"]
  | .DMat43 => CExpr.pathE ["glsl", "syntax", "TypeSpecifierNonArray", "DMat43"]
  | .Sampler1D => CExpr.pathE ["glsl", "syntax", "TypeSpecifierNonArray", "Sampler1D"]
  | .Image1D => CExpr.pathE ["glsl", "syntax", "TypeSpecifierNonArray", "Image1D"]
  | .Sampler2D => CExpr.pathE ["glsl", "syntax", "TypeSpecifierNonArray", "Sampler2D"]
  | .Image2D => CExpr.pathE ["glsl", "syntax", "TypeSpecifierNonArray", "Image2D"]
  | .Sampler3D => CExpr.pathE ["glsl", "syntax", "TypeSpecifierNonArray", "Sampler3D"]
  | .Image3D => CExpr.pathE ["glsl", "syntax", "TypeSpecifierNonArray", "Image3D"]
  | .SamplerCube => CExpr.pathE ["glsl", "syntax", "TypeSpecifierNonArray", "SamplerCube"]
  | .ImageCube => CExpr.pathE ["glsl", "syntax", "TypeSpecifierNonArray", "ImageCube"]
  | .Sampler2DRect => CExpr.pathE ["glsl", "syntax", "TypeSpecifierNonArray", "Sampler2DRect"]
  | .Image2DRect => CExpr.pathE ["glsl", "syntax", "TypeSpecifierNonArray", "Image2DRect"]
  | .Sampler1DArray => CExpr.pathE ["glsl", "syntax", "TypeSpecifierNonArray", "Sampler1DArray"]
  | .Image1DArray => CExpr.pathE ["glsl", "syntax", "TypeSpecifierNonArray", "Image1DArray"]
  | .Sampler2DArray => CExpr.pathE ["glsl", "syntax", "TypeSpecifierNonArray", "Sampler2DArray"]
  | .Image2DArray => CExpr.pathE ["glsl", "syntax", "TypeSpecifierNonArray", "Image2DArray"]
  | .SamplerBuffer => CExpr.pathE ["glsl", "syntax", "TypeSpecifierNonArray", "SamplerBuffer"]
  | .ImageBuffer => CExpr.pathE ["glsl", "syntax", "TypeSpecifierNonArray", "ImageBuffer"]
  | .Sampler2DMS => CExpr.pathE ["glsl", "syntax", "TypeSpecifierNonArray", "Sampler2DMS"]
  | .Image2DMS => CExpr.pathE ["glsl", "syntax", "TypeSpecifierNonArray", "Image2DMS"]
  | .Sampler2DMSArray => CExpr.pathE ["glsl", "syntax", "TypeSpecifierNonArray", "Sampler2DMSArray"]
  | .Image2DMSArray => CExpr.pathE ["glsl", "syntax", "TypeSpecifierNonArray", "Image2DMSArray"]
  | .SamplerCubeArray => CExpr.pathE ["glsl", "syntax", "TypeSpecifierNonArray", "SamplerCubeArray"]
  | .ImageCubeArray => CExpr.pathE ["glsl", "syntax", "TypeSpecifierNonArray", "ImageCubeArray"]
  | .Sampler1DShadow => CExpr.pathE ["glsl", "syntax", "TypeSpecifierNonArray", "Sampler1DShadow"]
  | .Sampler2DShadow => CExpr.pathE ["glsl", "syntax", "TypeSpecifierNonArray", "Sampler2DShadow"]
  | .Sampler2DRectShadow => CExpr.pathE ["glsl", "syntax", "TypeSpecifierNonArray", "Sampler2DRectShadow"]
  | .Sampler1DArrayShadow => CExpr.pathE ["glsl", "syntax", "TypeSpecifierNonArray", "Sampler1DArrayShadow"]
  | .Sampler2DArrayShadow => CExpr.pathE ["glsl", "syntax", "TypeSpecifierNonArray", "Sampler2DArrayShadow"]
  | .SamplerCubeShadow => CExpr.pathE ["glsl", "syntax", "TypeSpecifierNonArray", "SamplerCubeShadow"]
  | .SamplerCubeArrayShadow => CExpr.pathE ["glsl", "syntax", "TypeSpecifierNonArray", "SamplerCubeArrayShadow"]
  | .ISampler1D => CExpr.pathE ["glsl", "syntax", "TypeSpecifierNonArray", "ISampler1D"]
  | .IImage1D => CExpr.pathE ["glsl", "syntax", "TypeSpecifierNonArray", "IImage1D"]
  | .ISampler2D => CExpr.pathE ["glsl", "syntax", "TypeSpecifierNonArray", "ISampler2D"]
  | .IImage2D => CExpr.pathE ["glsl", "syntax", "TypeSpecifierNonArray", "IImage2D"]
  | .ISampler3D => CExpr.pathE ["glsl", "syntax", "TypeSpecifierNonArray", "ISampler3D"]
  | .IImage3D => CExpr.pathE ["glsl", "syntax", "TypeSpecifierNonArray", "IImage3D"]
  | .ISamplerCube => CExpr.pathE ["glsl", "syntax", "TypeSpecifierNonArray", "ISamplerCube"]
  | .IImageCube => CExpr.pathE ["glsl", "syntax", "TypeSpecifierNonArray", "IImageCube"]
  | .ISampler2DRect => CExpr.pathE ["glsl", "syntax", "TypeSpecifierNonArray", "ISampler2DRect"]
  | .IImage2DRect => CExpr.pathE ["glsl", "syntax", "TypeSpecifierNonArray", "IImage2DRect"]
  | .ISampler1DArray => CExpr.pathE ["glsl", "syntax", "TypeSpecifierNonArray", "ISampler1DArray"]
  | .IImage1DArray => CExpr.pathE ["glsl", "syntax", "TypeSpecifierNonArray", "IImage1DArray"]
  | .ISampler2DArray => CExpr.pathE ["glsl", "syntax", "TypeSpecifierNonArray", "ISampler2DArray"]
  | .IImage2DArray => CExpr.pathE ["glsl", "syntax", "TypeSpecifierNonArray", "IImage2DArray"]
  | .ISamplerBuffer => CExpr.pathE ["glsl", "syntax", "TypeSpecifierNonArray", "ISamplerBuffer"]
  | .IImageBuffer => CExpr.pathE ["glsl", "syntax", "TypeSpecifierNonArray", "IImageBuffer"]
  | .ISampler2DMS => CExpr.pathE ["glsl", "syntax", "TypeSpecifierNonArray", "ISampler2DMS"]
  | .IImage2DMS => CExpr.pathE ["glsl", "syntax", "TypeSpecifierNonArray", "IImage2DMS"]
  | .ISampler2DMSArray => CExpr.pathE ["glsl", "syntax", "TypeSpecifierNonArray", "ISampler2DMSArray"]
  | .IImage2DMSArray => CExpr.pathE ["glsl", "syntax", "TypeSpecifierNonArray", "IImage2DMSArray"]
  | .ISamplerCubeArray => CExpr.pathE ["glsl", "syntax", "TypeSpecifierNonArray", "ISamplerCubeArray"]
  | .IImageCubeArray => CExpr.pathE ["glsl", "syntax", "TypeSpecifierNonArray", "IImageCubeArray"]
  | .AtomicUInt => CExpr.pathE ["glsl", "syntax", "TypeSpecifierNonArray", "AtomicUInt"]
  | .USampler1D => CExpr.pathE ["glsl", "syntax", "TypeSpecifierNonArray", "USampler1D"]
  | .UImage1D => CExpr.pathE ["glsl", "syntax", "TypeSpecifierNonArray", "UImage1D"]
  | .USampler2D => CExpr.pathE ["glsl", "syntax", "TypeSpecifierNonArray", "USampler2D"]
  | .UImage2D => CExpr.pathE ["glsl", "syntax", "TypeSpecifierNonArray", "UImage2D"]
  | .USampler3D => CExpr.pathE ["glsl", "syntax", "TypeSpecifierNonArray", "USampler3D"]
  | .UImage3D => CExpr.pathE ["glsl", "syntax", "TypeSpecifierNonArray", "UImage3D"]
  | .USamplerCube => CExpr.pathE ["glsl", "syntax", "TypeSpecifierNonArray", "USamplerCube"]
  | .UImageCube => CExpr.pathE ["glsl", "syntax", "TypeSpecifierNonArray", "UImageCube"]
  | .USampler2DRect => CExpr.pathE ["glsl", "syntax", "TypeSpecifierNonArray", "USampler2DRect"]
  | .UImage2DRect => CExpr.pathE ["glsl", "syntax", "TypeSpecifierNonArray", "UImage2DRect"]
  | .USampler1DArray => CExpr.pathE ["glsl", "syntax", "TypeSpecifierNonArray", "USampler1DArray"]
  | .UImage1DArray => CExpr.pathE ["glsl", "syntax", "TypeSpecifierNonArray", "UImage1DArray"]
  | .USampler2DArray => CExpr.pathE ["glsl", "syntax", "TypeSpecifierNonArray", "USampler2DArray"]
  | .UImage2DArray => CExpr.pathE ["glsl", "syntax", "TypeSpecifierNonArray", "UImage2DArray"]
  | .USamplerBuffer => CExpr.pathE ["glsl", "syntax", "TypeSpecifierNonArray", "USamplerBuffer"]
  | .UImageBuffer => CExpr.pathE ["glsl", "syntax", "TypeSpecifierNonArray", "UImageBuffer"]
  | .USampler2DMS => CExpr.pathE ["glsl", "syntax", "TypeSpecifierNonArray", "USampler2DMS"]
  | .UImage2DMS => CExpr.pathE ["glsl", "syntax", "TypeSpecifierNonArray", "UImage2DMS"]
  | .USampler2DMSArray => CExpr.pathE ["glsl", "syntax", "TypeSpecifierNonArray", "USampler2DMSArray"]
  | .UImage2DMSArray => CExpr.pathE ["glsl", "syntax", "TypeSpecifierNonArray", "UImage2DMSArray"]
  | .USamplerCubeArray => CExpr.pathE ["glsl", "syntax", "TypeSpecifierNonArray", "USamplerCubeArray"]
  | .UImageCubeArray => CExpr.pathE ["glsl", "syntax", "TypeSpecifierNonArray", "UImageCubeArray"]
  | .Struct s => tokenize_struct_non_declaration s
  | .TypeName tn => CExpr.strLit tn

/-- lib.rs tokenize_type_specifier. -/
def tokenize_type_specifier : TypeSpecifier → CExpr
  | .mk ty array_specifier =>
      CExpr.structE ["glsl", "syntax", "TypeSpecifier"]
        [("ty", tokenize_type_specifier_non_array ty),
         ("array_specifier", quoteOpt (array_specifier.map tokenize_array_spec))]

/-- lib.rs tokenize_struct_non_declaration. -/
def tokenize_struct_non_declaration : StructSpecifier → CExpr
  | .mk name fields =>
      CExpr.structE ["glsl", "syntax", "StructSpecifier"]
        [("name", CExpr.callE ["String", "from"] [CExpr.strLit name]),
         ("fields", CExpr.vecE (tokenize_struct_field_list fields))]

/-- lib.rs tokenize_struct_field. -/
def tokenize_struct_field : StructFieldSpecifier → CExpr
  | .mk qualifier ty identifiers =>
      CExpr.structE ["glsl", "syntax", "StructFieldSpecifier"]
        [("qualifier", quoteOpt (qualifier.map tokenize_type_qualifier)),
         ("ty", tokenize_type_specifier ty),
         ("identifiers",
          CExpr.vecE (identifiers.map fun ab => tokenize_arrayed_identifier ab.1 ab.2))]

/-- Elementwise tokenization of a struct field list
(s.fields.iter().map(tokenize_struct_field) in the source). -/
def tokenize_struct_field_list : List StructFieldSpecifier → List CExpr
  | [] => []
  | f :: fs => tokenize_struct_field f :: tokenize_struct_field_list fs
end

/-- glsl::syntax::FullySpecifiedType. -/
structure FullySpecifiedType where
  qualifier : Option TypeQualifier
  ty : TypeSpecifier

/-- lib.rs tokenize_fully_specified_type. -/
def tokenize_fully_specified_type (t : FullySpecifiedType) : CExpr :=
  CExpr.structE ["glsl", "syntax", "FullySpecifiedType"]
    [("qualifier", quoteOpt (t.qualifier.map tokenize_type_qualifier)),
     ("ty", tokenize_type_specifier t.ty)]

/-- glsl::syntax::Initializer. -/
inductive Initializer where
  | Simple (e : Expr)
  | List (l : List Initializer)

mutual
/-- lib.rs tokenize_initializer. -/
def tokenize_initializer : Initializer → CExpr
  | .Simple e => CExpr.callE ["glsl", "syntax", "Initializer", "Simple"] [tokenize_expr e]
  | .List l =>
      CExpr.callE ["glsl", "syntax", "Initializer", "List"]
        [CExpr.vecE (tokenize_initializer_list l)]

/-- Elementwise tokenization of a nested initializer list
(list.iter().map(tokenize_initializer) in the source). -/
def tokenize_initializer_list : List Initializer → List CExpr
  | [] => []
  | i :: is => tokenize_initializer i :: tokenize_initializer_list is
end

/-- glsl::syntax::SingleDeclaration. -/
structure SingleDeclaration where
  ty : FullySpecifiedType
  name : String
  array_specifier : Option ArraySpecifier
  initializer : Option Initializer

/-- glsl::syntax::SingleDeclarationNoType. -/
structure SingleDeclarationNoType where
  name : String
  array_specifier : Option ArraySpecifier
  initializer : Option Initializer

/-- glsl::syntax::InitDeclaratorList. -/
structure InitDeclaratorList where
  head : SingleDeclaration
  tail : List SingleDeclarationNoType

/-- glsl::syntax::FunctionParameterDeclarator. -/
structure FunctionParameterDeclarator where
  ty : TypeSpecifier
  name : String
  array_spec : Option ArraySpecifier

/-- glsl::syntax::FunctionParameterDeclaration. -/
inductive FunctionParameterDeclaration where
  | Named (qualifier : Option TypeQualifier) (fpd : FunctionParameterDeclarator)
  | Unnamed (qualifier : Option TypeQualifier) (ty : TypeSpecifier)

/-- glsl::syntax::FunctionPrototype. -/
structure FunctionPrototype where
  ty : FullySpecifiedType
  name : String
  parameters : List FunctionParameterDeclaration

/-- glsl::syntax::Block (an interface block; the trailing instance identifier
is a pair of identifier text and an optional array specifier). -/
structure Block where
  qualifier : TypeQualifier
  name : String
  fields : List StructFieldSpecifier
  identifier : Option (String × Option ArraySpecifier)

/-- glsl::syntax::Declaration. -/
inductive Declaration where
  | FunctionPrototype (proto : FunctionPrototype)
  | InitDeclaratorList (list : InitDeclaratorList)
  | Precision (qual : PrecisionQualifier) (ty : TypeSpecifier)
  | Block (block : Block)
  | Global (qual : TypeQualifier) (identifiers : List String)

/-- lib.rs tokenize_single_declaration. -/
def tokenize_single_declaration (d : SingleDeclaration) : CExpr :=
  CExpr.structE ["glsl", "syntax", "SingleDeclaration"]
    [("ty", tokenize_fully_specified_type d.ty),
     ("name", CExpr.callE ["String", "from"] [CExpr.strLit d.name]),
     ("array_specifier", quoteOpt (d.array_specifier.map tokenize_array_spec)),
     ("initializer", quoteOpt (d.initializer.map tokenize_initializer))]

/-- lib.rs tokenize_single_declaration_no_type. -/
def tokenize_single_declaration_no_type (d : SingleDeclarationNoType) : CExpr :=
  CExpr.structE ["glsl", "syntax", "SingleDeclarationNoType"]
    [("name", CExpr.callE ["String", "from"] [CExpr.strLit d.name]),
     ("array_specifier", quoteOpt (d.array_specifier.map tokenize_array_spec)),
     ("initializer", quoteOpt (d.initializer.map tokenize_initializer))]

/-- lib.rs tokenize_init_declarator_list. -/
def tokenize_init_declarator_list (i : InitDeclaratorList) : CExpr :=
  CExpr.structE ["glsl", "syntax", "InitDeclaratorList"]
    [("head", tokenize_single_declaration i.head),
     ("tail", CExpr.vecE (i.tail.map tokenize_single_declaration_no_type))]

/-- lib.rs tokenize_function_parameter_declarator. -/
def tokenize_function_parameter_declarator (p : FunctionParameterDeclarator) : CExpr :=
  CExpr.structE ["glsl", "syntax", "FunctionParameterDeclarator"]
    [("ty", tokenize_type_specifier p.ty),
     ("name", CExpr.callE ["String", "from"] [CExpr.strLit p.name]),
     ("array_spec", quoteOpt (p.array_spec.map tokenize_array_spec))]

/-- lib.rs tokenize_function_parameter_declaration. -/
def tokenize_function_parameter_declaration : FunctionParameterDeclaration → CExpr
  | .Named qual fpd =>
      CExpr.callE ["glsl", "syntax", "FunctionParameterDeclaration", "Named"]
        [quoteOpt (qual.map tokenize_type_qualifier), tokenize_function_parameter_declarator fpd]
  | .Unnamed qual ty =>
      CExpr.callE ["glsl", "syntax", "FunctionParameterDeclaration", "Unnamed"]
        [quoteOpt (qual.map tokenize_type_qualifier), tokenize_type_specifier ty]

/-- lib.rs tokenize_function_prototype. -/
def tokenize_function_prototype (fp : FunctionPrototype) : CExpr :=
  CExpr.structE ["glsl", "syntax", "FunctionPrototype"]
    [("ty", tokenize_fully_specified_type fp.ty),
     ("name", CExpr.callE ["String", "from"] [CExpr.strLit fp.name]),
     ("parameters", CExpr.vecE (fp.parameters.map tokenize_function_parameter_declaration))]

/-- lib.rs tokenize_block. -/
def tokenize_block (b : Block) : CExpr :=
  CExpr.structE ["glsl", "syntax", "Block"]
    [("qualifier", tokenize_type_qualifier b.qualifier),
     ("name", CExpr.callE ["String", "from"] [CExpr.strLit b.name]),
     ("fields", CExpr.vecE (b.fields.map tokenize_struct_field)),
     ("identifier", quoteOpt (b.identifier.map fun ab => tokenize_arrayed_identifier ab.1 ab.2))]

/-- lib.rs tokenize_declaration.  The Global arm interpolates the identifier
list directly, so each identifier appears as a bare string literal. -/
def tokenize_declaration : Declaration → CExpr
  | .FunctionPrototype proto =>
      CExpr.callE ["glsl", "syntax", "Declaration", "FunctionPrototype"]
        [tokenize_function_prototype proto]
  | .InitDeclaratorList list =>
      CExpr.callE ["glsl", "syntax", "Declaration", "InitDeclaratorList"]
        [tokenize_init_declarator_list list]
  | .Precision qual ty =>
      CExpr.callE ["glsl", "syntax", "Declaration", "Precision"]
        [tokenize_precision_qualifier qual, tokenize_type_specifier ty]
  | .Block block =>
      CExpr.callE ["glsl", "syntax", "Declaration", "Block"] [tokenize_block block]
  | .Global qual identifiers =>
      CExpr.callE ["glsl", "syntax", "Declaration", "Global"]
        [tokenize_type_qualifier qual, CExpr.vecE (identifiers.map CExpr.strLit)]

/-- glsl::syntax::Condition. -/
inductive Condition where
  | Expr (e : Expr)
  | Assignment (ty : FullySpecifiedType) (name : String) (initializer : Initializer)

/-- lib.rs tokenize_condition. -/
def tokenize_condition : Condition → CExpr
  | .Expr e => CExpr.callE ["glsl", "syntax", "Condition", "Expr"] [tokenize_expr e]
  | .Assignment ty name initializer =>
      CExpr.callE ["glsl", "syntax", "Condition", "Assignment"]
        [tokenize_fully_specified_type ty,
         CExpr.callE ["String", "from"] [CExpr.strLit name],
         tokenize_initializer initializer]

/-- glsl::syntax::ForRestStatement, with the field names under which the
source reads it: r.condition and r.post_expr. -/
structure ForRestStatement where
  condition : Option Condition
  post_expr : Option Expr

/-- lib.rs tokenize_for_rest_statement.  The emitted struct literal names its
second field post, although the same function reads the input field as
r.post_expr. -/
def tokenize_for_rest_statement (r : ForRestStatement) : CExpr :=
  CExpr.structE ["glsl", "syntax", "ForRestStatement"]
    [("condition", quoteOpt (r.condition.map tokenize_condition)),
     ("post", quoteOpt (r.post_expr.map tokenize_expr))]

/-- glsl::syntax::ForInitStatement. -/
inductive ForInitStatement where
  | Expression (e : Option Expr)
  | Declaration (d : Declaration)

/-- lib.rs tokenize_for_init_statement. -/
def tokenize_for_init_statement : ForInitStatement → CExpr
  | .Expression e =>
      CExpr.callE ["glsl", "syntax", "ForInitStatement", "Expression"]
        [quoteOpt (e.map tokenize_expr)]
  | .Declaration d =>
      CExpr.callE ["glsl", "syntax", "ForInitStatement", "Declaration"] [tokenize_declaration d]

/-- glsl::syntax::JumpStatement. -/
inductive JumpStatement where
  | Continue
  | Break
  | Discard
  | Return (e : Expr)

/-- lib.rs tokenize_jump_statement: all four arms of the source emit the
unqualified path JumpStatement::... rather than glsl::syntax::JumpStatement. -/
def tokenize_jump_statement : JumpStatement → CExpr
  | .Continue => CExpr.pathE ["JumpStatement", "Continue"]
  | .Break => CExpr.pathE ["JumpStatement", "Break"]
  | .Discard => CExpr.pathE ["JumpStatement", "Discard"]
  | .Return e => CExpr.callE ["JumpStatement", "Return"] [tokenize_expr e]

/-- glsl::syntax::CaseLabel. -/
inductive CaseLabel where
  | Case (e : Expr)
  | Def

/-- lib.rs tokenize_case_label. -/
def tokenize_case_label : CaseLabel → CExpr
  | .Case e => CExpr.callE ["glsl", "syntax", "CaseLabel", "Case"] [tokenize_expr e]
  | .Def => CExpr.pathE ["glsl", "syntax", "CaseLabel", "Def"]

/-- lib.rs tokenize_expression_statement (an ExprStatement is Option Expr). -/
def tokenize_expression_statement (est : Option Expr) : CExpr :=
  quoteOpt (est.map tokenize_expr)

mutual
/-- glsl::syntax::Statement. -/
inductive Statement where
  | Compound (cst : CompoundStatement)
  | Simple (sst : SimpleStatement)

/-- glsl::syntax::CompoundStatement. -/
inductive CompoundStatement where
  | mk (statement_list : List Statement)

/-- glsl::syntax::SimpleStatement. -/
inductive SimpleStatement where
  | Declaration (d : Declaration)
  | Expression (e : Option Expr)
  | Selection (s : SelectionStatement)
  | Switch (s : SwitchStatement)
  | CaseLabel (cl : CaseLabel)
  | Iteration (i : IterationStatement)
  | Jump (j : JumpStatement)

/-- glsl::syntax::SelectionStatement. -/
inductive SelectionStatement where
  | mk (cond : Expr) (rest : SelectionRestStatement)

/-- glsl::syntax::SelectionRestStatement. -/
inductive SelectionRestStatement where
  | Statement (if_st : Statement)
  | Else (if_st : Statement) (else_st : Statement)

/-- glsl::syntax::SwitchStatement. -/
inductive SwitchStatement where
  | mk (head : Expr) (body : List Statement)

/-- glsl::syntax::IterationStatement. -/
inductive IterationStatement where
  | While (cond : Condition) (body : Statement)
  | DoWhile (body : Statement) (cond : Expr)
  | For (init : ForInitStatement) (rest : ForRestStatement) (body : Statement)
end

/-- Field projection for CompoundStatement. -/
def CompoundStatement.statement_list : CompoundStatement → List Statement
  | .mk l => l

mutual
/-- lib.rs tokenize_statement. -/
def tokenize_statement : Statement → CExpr
  | .Compound cst =>
      CExpr.callE ["glsl", "syntax", "Statement", "Compound"] [tokenize_compound_statement cst]
  | .Simple sst =>
      CExpr.callE ["glsl", "syntax", "Statement", "Simple"] [tokenize_simple_statement sst]

/-- lib.rs tokenize_compound_statement. -/
def tokenize_compound_statement : CompoundStatement → CExpr
  | .mk statement_list =>
      CExpr.structE ["glsl", "syntax", "CompoundStatement"]
        [("statement_list", CExpr.vecE (tokenize_statement_list statement_list))]

/-- Elementwise tokenization of a statement list
(iter().map(tokenize_statement) in the source). -/
def tokenize_statement_list : List Statement → List CExpr
  | [] => []
  | st :: sts => tokenize_statement st :: tokenize_statement_list sts

/-- lib.rs tokenize_simple_statement. -/
def tokenize_simple_statement : SimpleStatement → CExpr
  | .Declaration d =>
      CExpr.callE ["glsl", "syntax", "SimpleStatement", "Declaration"] [tokenize_declaration d]
  | .Expression e =>
      CExpr.callE ["glsl", "syntax", "SimpleStatement", "Expression"]
        [tokenize_expression_statement e]
  | .Selection s =>
      CExpr.callE ["glsl", "syntax", "SimpleStatement", "Selection"]
        [tokenize_selection_statement s]
  | .Switch s =>
      CExpr.callE ["glsl", "syntax", "SimpleStatement", "Switch"] [tokenize_switch_statement s]
  | .CaseLabel cl =>
      CExpr.callE ["glsl", "syntax", "SimpleStatement", "CaseLabel"] [tokenize_case_label cl]
  | .Iteration i =>
      CExpr.callE ["glsl", "syntax", "SimpleStatement", "Iteration"]
        [tokenize_iteration_statement i]
  | .Jump j =>
      CExpr.callE ["glsl", "syntax", "SimpleStatement", "Jump"] [tokenize_jump_statement j]

/-- lib.rs tokenize_selection_statement. -/
def tokenize_selection_statement : SelectionStatement → CExpr
  | .mk cond rest =>
      CExpr.structE ["glsl", "syntax", "SelectionStatement"]
        [("cond", tokenize_expr cond), ("rest", tokenize_selection_rest_statement rest)]

/-- lib.rs tokenize_selection_rest_statement. -/
def tokenize_selection_rest_statement : SelectionRestStatement → CExpr
  | .Statement if_st =>
      CExpr.callE ["glsl", "syntax", "SelectionRestStatement", "Statement"]
        [tokenize_statement if_st]
  | .Else if_st else_st =>
      CExpr.callE ["glsl", "syntax", "SelectionRestStatement", "Else"]
        [tokenize_statement if_st, tokenize_statement else_st]

/-- lib.rs tokenize_switch_statement. -/
def tokenize_switch_statement : SwitchStatement → CExpr
  | .mk head body =>
      CExpr.structE ["glsl", "syntax", "SwitchStatement"]
        [("head", tokenize_expr head), ("body", CExpr.vecE (tokenize_statement_list body))]

/-- lib.rs tokenize_iteration_statement. -/
def tokenize_iteration_statement : IterationStatement → CExpr
  | .While cond body =>
      CExpr.callE ["glsl", "syntax", "IterationStatement", "While"]
        [tokenize_condition cond, tokenize_statement body]
  | .DoWhile body cond =>
      CExpr.callE ["glsl", "syntax", "IterationStatement", "DoWhile"]
        [tokenize_statement body, tokenize_expr cond]
  | .For init rest body =>
      CExpr.callE ["glsl", "syntax", "IterationStatement", "For"]
        [tokenize_for_init_statement init, tokenize_for_rest_statement rest,
         tokenize_statement body]
end

/-- glsl::syntax::FunctionDefinition. -/
structure FunctionDefinition where
  prototype : FunctionPrototype
  statement : CompoundStatement

/-- lib.rs tokenize_function_definition. -/
def tokenize_function_definition (fd : FunctionDefinition) : CExpr :=
  CExpr.structE ["glsl", "syntax", "FunctionDefinition"]
    [("prototype", tokenize_function_prototype fd.prototype),
     ("statement", tokenize_compound_statement fd.statement)]

/-- glsl::syntax::ExternalDeclaration. -/
inductive ExternalDeclaration where
  | Preprocessor (pp : Preprocessor)
  | FunctionDefinition (fd : FunctionDefinition)
  | Declaration (d : Declaration)

/-- lib.rs tokenize_external_declaration. -/
def tokenize_external_declaration : ExternalDeclaration → CExpr
  | .Preprocessor pp =>
      CExpr.callE ["glsl", "syntax", "ExternalDeclaration", "Preprocessor"]
        [tokenize_preprocessor pp]
  | .FunctionDefinition fd =>
      CExpr.callE ["glsl", "syntax", "ExternalDeclaration", "FunctionDefinition"]
        [tokenize_function_definition fd]
  | .Declaration d =>
      CExpr.callE ["glsl", "syntax", "ExternalDeclaration", "Declaration"]
        [tokenize_declaration d]

/-- glsl::syntax::TranslationUnit: an ordered sequence of external
declarations. -/
abbrev TranslationUnit := List ExternalDeclaration

/-- lib.rs tokenize_translation_unit: quote!(vec![#(#tu),*]). -/
def tokenize_translation_unit (tu : TranslationUnit) : CExpr :=
  CExpr.vecE (tu.map tokenize_external_declaration)

/-- Host token trees handed to the procedural macros (proc_macro::TokenTree).
A delimited group is modelled by its rendered text, which is all the driver
ever does with non-literal tokens. -/
inductive Token where
  | lit (printed : String)
  | ident (s : String)
  | punct (s : String)
  | group (rendered : String)
deriving DecidableEq

/-- Display rendering of one token. -/
def formatToken : Token → String
  | .lit s => s
  | .ident s => s
  | .punct s => s
  | .group s => s

/-- Display rendering of a whole token stream, as obtained by the format
call of the glsl entry point. -/
def formatTokens (ts : List Token) : String :=
  String.intercalate " " (ts.map formatToken)

/-- glsl::parser::ParseResult, collapsed to the two outcomes lib.rs
distinguishes: Ok, and every failure outcome carrying the parser diagnostic
that the panic message Debug-formats. -/
inductive ParseResult where
  | Ok (tu : TranslationUnit)
  | Fail (desc : String)

/-- Debug rendering of a ParseResult, as interpolated into the panic
message of the two entry points. -/
def parseResultRepr : ParseResult → String
  | .Ok _ => "Ok(..)"
  | .Fail desc => "Err(" ++ desc ++ ")"

/-- Outcome of a procedural macro invocation: emitted code, or a panic
aborting the enclosing build with a message. -/
inductive ExpandResult where
  | success (code : CExpr)
  | abort (msg : String)

/-- lib.rs glsl: Display-format the token stream, hand it to the external
parser as a translation unit, tokenize on success, and panic with the Debug
of the parse result otherwise. -/
def glsl (parse : String → ParseResult) (input : List Token) : ExpandResult :=
  match parse (formatTokens input) with
  | .Ok tu => ExpandResult.success (tokenize_translation_unit tu)
  | r => ExpandResult.abort ("GLSL error: " ++ parseResultRepr r)

/-- The Rust slice of lib.rs glsl_str on the printed form of the first
literal token, dropping one character from each end (the first and last
characters of any Rust literal are single bytes). -/
def sliceEnds (s : String) : String := (s.drop 1).dropRight 1

/-- Panic message of the out-of-range slice that glsl_str hits when the
printed literal has fewer than two characters. -/
def sliceIndexMsg : String := "slice index starts at 1 but ends at 0"

/-- Debug rendering of a token, as interpolated into the
malformed-invocation panic message of glsl_str. -/
def tokenRepr : Token → String
  | .lit s => "Literal(" ++ s ++ ")"
  | .ident s => "Ident(" ++ s ++ ")"
  | .punct s => "Punct(" ++ s ++ ")"
  | .group s => "Group(" ++ s ++ ")"

/-- Debug rendering of the first token slot of the input. -/
def optTokenRepr : Option Token → String
  | some t => "Some(" ++ tokenRepr t ++ ")"
  | none => "None"

/-- The malformed-invocation panic message of glsl_str. -/
def incorrectInvocationMsg (x : Option Token) : String :=
  "GLSL error: incorrect macro invocation, please use a single opaque string; saw "
    ++ optTokenRepr x

/-- lib.rs glsl_str: look only at the first token of the input; if it is a
literal of any kind, slice one character off each end of its printed form
and parse the result (the slice panics on a literal printed with fewer than
two characters); any other first token, or an empty input, panics with the
malformed-invocation message.  Tokens after the first are never examined. -/
def glsl_str (parse : String → ParseResult) (input : List Token) : ExpandResult :=
  match input.head? with
  | some (Token.lit s) =>
      if 2 ≤ s.length then
        match parse (sliceEnds s) with
        | .Ok tu => ExpandResult.success (tokenize_translation_unit tu)
        | r => ExpandResult.abort ("GLSL error: " ++ parseResultRepr r)
      else ExpandResult.abort sliceIndexMsg
  | x => ExpandResult.abort (incorrectInvocationMsg x)

/-- Rust evaluation of an emitted expression expected at type String: only
String::from applied to a string literal yields a String value here (a bare
string literal has type ampersand-str, and Rust applies no implicit
coercion). -/
def evalString : CExpr → Option String
  | CExpr.callE ["String", "from"] [CExpr.strLit s] => some s
  | _ => none

/-- Rust evaluation at type Option T, given an evaluator for T: only the
Some(e) and None forms produced by the option lift denote option values. -/
def evalOpt {A : Type} (f : CExpr → Option A) : CExpr → Option (Option A)
  | CExpr.callE ["Some"] [x] => (f x).map some
  | CExpr.pathE ["None"] => some none
  | _ => none

/-- Rust evaluation at type PreprocessorExtensionName: the two constructors
of the enum.  No other expression produces a value of this enum; in
particular a String::from call has type String, not
PreprocessorExtensionName. -/
def evalPreprocessorExtensionName : CExpr → Option PreprocessorExtensionName
  | CExpr.pathE ["glsl", "syntax", "PreprocessorExtensionName", "All"] =>
      some PreprocessorExtensionName.All
  | CExpr.callE ["glsl", "syntax", "PreprocessorExtensionName", "Specific"] [arg] =>
      (evalString arg).map PreprocessorExtensionName.Specific
  | _ => none

/-- Rust evaluation at type PreprocessorExtensionBehavior. -/
def evalPreprocessorExtensionBehavior : CExpr → Option PreprocessorExtensionBehavior
  | CExpr.pathE ["glsl", "syntax", "PreprocessorExtensionBehavior", "Require"] =>
      some PreprocessorExtensionBehavior.Require
  | CExpr.pathE ["glsl", "syntax", "PreprocessorExtensionBehavior", "Enable"] =>
      some PreprocessorExtensionBehavior.Enable
  | CExpr.pathE ["glsl", "syntax", "PreprocessorExtensionBehavior", "Warn"] =>
      some PreprocessorExtensionBehavior.Warn
  | CExpr.pathE ["glsl", "syntax", "PreprocessorExtensionBehavior", "Disable"] =>
      some PreprocessorExtensionBehavior.Disable
  | _ => none

/-- Rust evaluation at type PreprocessorExtension: a struct literal carrying
exactly the declared fields name and behavior (in the order the tokenizer
emits them), with a name of type PreprocessorExtensionName and an optional
behavior. -/
def evalPreprocessorExtension : CExpr → Option PreprocessorExtension
  | CExpr.structE ["glsl", "syntax", "PreprocessorExtension"] [("name", n), ("behavior", b)] =>
      match evalPreprocessorExtensionName n, evalOpt evalPreprocessorExtensionBehavior b with
      | some nv, some bv => some { name := nv, behavior := bv }
      | _, _ => none
  | _ => none

/-- Rust evaluation at type PreprocessorVersionProfile. -/
def evalPreprocessorVersionProfile : CExpr → Option PreprocessorVersionProfile
  | CExpr.pathE ["glsl", "syntax", "PreprocessorVersionProfile", "Core"] =>
      some PreprocessorVersionProfile.Core
  | CExpr.pathE ["glsl", "syntax", "PreprocessorVersionProfile", "Compatibility"] =>
      some PreprocessorVersionProfile.Compatibility
  | CExpr.pathE ["glsl", "syntax", "PreprocessorVersionProfile", "ES"] =>
      some PreprocessorVersionProfile.ES
  | _ => none

/-- Rust evaluation at type PreprocessorVersion. -/
def evalPreprocessorVersion : CExpr → Option PreprocessorVersion
  | CExpr.structE ["glsl", "syntax", "PreprocessorVersion"]
      [("version", CExpr.natLit n), ("profile", p)] =>
      (evalOpt evalPreprocessorVersionProfile p).map fun pr => { version := n, profile := pr }
  | _ => none

/-- Rust evaluation at type Preprocessor. -/
def evalPreprocessor : CExpr → Option Preprocessor
  | CExpr.callE ["glsl", "syntax", "Preprocessor", "Version"] [v] =>
      (evalPreprocessorVersion v).map Preprocessor.Version
  | CExpr.callE ["glsl", "syntax", "Preprocessor", "Extension"] [e] =>
      (evalPreprocessorExtension e).map Preprocessor.Extension
  | _ => none

/-- Rust evaluation at type ForRestStatement, parametric in the evaluators
of the two field payloads: a struct literal must supply both declared fields,
condition and post_expr, and nothing else. -/
def evalForRestWith (fc : CExpr → Option (Option Condition))
    (fp : CExpr → Option (Option Expr)) : CExpr → Option ForRestStatement
  | CExpr.structE ["glsl", "syntax", "ForRestStatement"] fields =>
      match fields.lookup "condition", fields.lookup "post_expr" with
      | some c, some p =>
          if fields.length = 2 then
            match fc c, fp p with
            | some cv, some pv => some { condition := cv, post_expr := pv }
            | _, _ => none
          else none
      | _, _ => none
  | _ => none

/-- Membership in the closed built-in catalog of type specifiers: every
variant except the two open ones, Struct and TypeName. -/
def isBuiltinTypeSpecifier : TypeSpecifierNonArray → Bool
  | .Struct _ => false
  | .TypeName _ => false
  | _ => true

/-- Which catalog variant a built-in constructor name denotes: the inverse
reading of the names emitted by tokenize_type_specifier_non_array. -/
def decodeBuiltinName : String → Option TypeSpecifierNonArray
  | "Void" => some TypeSpecifierNonArray.Void
  | "Bool" => some TypeSpecifierNonArray.Bool
  | "Int" => some TypeSpecifierNonArray.Int
  | "UInt" => some TypeSpecifierNonArray.UInt
  | "Float" => some TypeSpecifierNonArray.Float
  | "Double" => some TypeSpecifierNonArray.Double
  | "Vec2" => some TypeSpecifierNonArray.Vec2
  | "Vec3" => some TypeSpecifierNonArray.Vec3
  | "Vec4" => some TypeSpecifierNonArray.Vec4
  | "DVec2" => some TypeSpecifierNonArray.DVec2
  | "DVec3" => some TypeSpecifierNonArray.DVec3
  | "DVec4" => some TypeSpecifierNonArray.DVec4
  | "BVec2" => some TypeSpecifierNonArray.BVec2
  | "BVec3" => some TypeSpecifierNonArray.BVec3
  | "BVec4" => some TypeSpecifierNonArray.BVec4
  | "IVec2" => some TypeSpecifierNonArray.IVec2
  | "IVec3" => some TypeSpecifierNonArray.IVec3
  | "IVec4" => some TypeSpecifierNonArray.IVec4
  | "UVec2" => some TypeSpecifierNonArray.UVec2
  | "UVec3" => some TypeSpecifierNonArray.UVec3
  | "UVec4" => some TypeSpecifierNonArray.UVec4
  | "Mat2" => some TypeSpecifierNonArray.Mat2
  | "Mat3" => some TypeSpecifierNonArray.Mat3
  | "Mat4" => some TypeSpecifierNonArray.Mat4
  | "Mat23" => some TypeSpecifierNonArray.Mat23
  | "Mat24" => some TypeSpecifierNonArray.Mat24
  | "Mat32" => some TypeSpecifierNonArray.Mat32
  | "Mat34" => some TypeSpecifierNonArray.Mat34
  | "Mat42" => some TypeSpecifierNonArray.Mat42
  | "Mat43" => some TypeSpecifierNonArray.Mat43
  | "DMat2" => some TypeSpecifierNonArray.DMat2
  | "DMat3" => some TypeSpecifierNonArray.DMat3
  | "DMat4" => some TypeSpecifierNonArray.DMat4
  | "DMat23" => some TypeSpecifierNonArray.DMat23
  | "DMat24" => some TypeSpecifierNonArray.DMat24
  | "DMat32" => some TypeSpecifierNonArray.DMat32
  | "DMat34" => some TypeSpecifierNonArray.DMat34
  | "DMat42" => some TypeSpecifierNonArray.DMat42
  | "DMat43" => some TypeSpecifierNonArray.DMat43
  | "Sampler1D" => some TypeSpecifierNonArray.Sampler1D
  | "Image1D" => some TypeSpecifierNonArray.Image1D
  | "Sampler2D" => some TypeSpecifierNonArray.Sampler2D
  | "Image2D" => some TypeSpecifierNonArray.Image2D
  | "Sampler3D" => some TypeSpecifierNonArray.Sampler3D
  | "Image3D" => some TypeSpecifierNonArray.Image3D
  | "SamplerCube" => some TypeSpecifierNonArray.SamplerCube
  | "ImageCube" => some TypeSpecifierNonArray.ImageCube
  | "Sampler2DRect" => some TypeSpecifierNonArray.Sampler2DRect
  | "Image2DRect" => some TypeSpecifierNonArray.Image2DRect
  | "Sampler1DArray" => some TypeSpecifierNonArray.Sampler1DArray
  | "Image1DArray" => some TypeSpecifierNonArray.Image1DArray
  | "Sampler2DArray" => some TypeSpecifierNonArray.Sampler2DArray
  | "Image2DArray" => some TypeSpecifierNonArray.Image2DArray
  | "SamplerBuffer" => some TypeSpecifierNonArray.SamplerBuffer
  | "ImageBuffer" => some TypeSpecifierNonArray.ImageBuffer
  | "Sampler2DMS" => some TypeSpecifierNonArray.Sampler2DMS
  | "Image2DMS" => some TypeSpecifierNonArray.Image2DMS
  | "Sampler2DMSArray" => some TypeSpecifierNonArray.Sampler2DMSArray
  | "Image2DMSArray" => some TypeSpecifierNonArray.Image2DMSArray
  | "SamplerCubeArray" => some TypeSpecifierNonArray.SamplerCubeArray
  | "ImageCubeArray" => some TypeSpecifierNonArray.ImageCubeArray
  | "Sampler1DShadow" => some TypeSpecifierNonArray.Sampler1DShadow
  | "Sampler2DShadow" => some TypeSpecifierNonArray.Sampler2DShadow
  | "Sampler2DRectShadow" => some TypeSpecifierNonArray.Sampler2DRectShadow
  | "Sampler1DArrayShadow" => some TypeSpecifierNonArray.Sampler1DArrayShadow
  | "Sampler2DArrayShadow" => some TypeSpecifierNonArray.Sampler2DArrayShadow
  | "SamplerCubeShadow" => some TypeSpecifierNonArray.SamplerCubeShadow
  | "SamplerCubeArrayShadow" => some TypeSpecifierNonArray.SamplerCubeArrayShadow
  | "ISampler1D" => some TypeSpecifierNonArray.ISampler1D
  | "IImage1D" => some TypeSpecifierNonArray.IImage1D
  | "ISampler2D" => some TypeSpecifierNonArray.ISampler2D
  | "IImage2D" => some TypeSpecifierNonArray.IImage2D
  | "ISampler3D" => some TypeSpecifierNonArray.ISampler3D
  | "IImage3D" => some TypeSpecifierNonArray.IImage3D
  | "ISamplerCube" => some TypeSpecifierNonArray.ISamplerCube
  | "IImageCube" => some TypeSpecifierNonArray.IImageCube
  | "ISampler2DRect" => some TypeSpecifierNonArray.ISampler2DRect
  | "IImage2DRect" => some TypeSpecifierNonArray.IImage2DRect
  | "ISampler1DArray" => some TypeSpecifierNonArray.ISampler1DArray
  | "IImage1DArray" => some TypeSpecifierNonArray.IImage1DArray
  | "ISampler2DArray" => some TypeSpecifierNonArray.ISampler2DArray
  | "IImage2DArray" => some TypeSpecifierNonArray.IImage2DArray
  | "ISamplerBuffer" => some TypeSpecifierNonArray.ISamplerBuffer
  | "IImageBuffer" => some TypeSpecifierNonArray.IImageBuffer
  | "ISampler2DMS" => some TypeSpecifierNonArray.ISampler2DMS
  | "IImage2DMS" => some TypeSpecifierNonArray.IImage2DMS
  | "ISampler2DMSArray" => some TypeSpecifierNonArray.ISampler2DMSArray
  | "IImage2DMSArray" => some TypeSpecifierNonArray.IImage2DMSArray
  | "ISamplerCubeArray" => some TypeSpecifierNonArray.ISamplerCubeArray
  | "IImageCubeArray" => some TypeSpecifierNonArray.IImageCubeArray
  | "AtomicUInt" => some TypeSpecifierNonArray.AtomicUInt
  | "USampler1D" => some TypeSpecifierNonArray.USampler1D
  | "UImage1D" => some TypeSpecifierNonArray.UImage1D
  | "USampler2D" => some TypeSpecifierNonArray.USampler2D
  | "UImage2D" => some TypeSpecifierNonArray.UImage2D
  | "USampler3D" => some TypeSpecifierNonArray.USampler3D
  | "UImage3D" => some TypeSpecifierNonArray.UImage3D
  | "USamplerCube" => some TypeSpecifierNonArray.USamplerCube
  | "UImageCube" => some TypeSpecifierNonArray.UImageCube
  | "USampler2DRect" => some TypeSpecifierNonArray.USampler2DRect
  | "UImage2DRect" => some TypeSpecifierNonArray.UImage2DRect
  | "USampler1DArray" => some TypeSpecifierNonArray.USampler1DArray
  | "UImage1DArray" => some TypeSpecifierNonArray.UImage1DArray
  | "USampler2DArray" => some TypeSpecifierNonArray.USampler2DArray
  | "UImage2DArray" => some TypeSpecifierNonArray.UImage2DArray
  | "USamplerBuffer" => some TypeSpecifierNonArray.USamplerBuffer
  | "UImageBuffer" => some TypeSpecifierNonArray.UImageBuffer
  | "USampler2DMS" => some TypeSpecifierNonArray.USampler2DMS
  | "UImage2DMS" => some TypeSpecifierNonArray.UImage2DMS
  | "USampler2DMSArray" => some TypeSpecifierNonArray.USampler2DMSArray
  | "UImage2DMSArray" => some TypeSpecifierNonArray.UImage2DMSArray
  | "USamplerCubeArray" => some TypeSpecifierNonArray.USamplerCubeArray
  | "UImageCubeArray" => some TypeSpecifierNonArray.UImageCubeArray
  | _ => none

/-- Rust evaluation of a nullary glsl::syntax::TypeSpecifierNonArray
constructor path back to the catalog variant it denotes. -/
def decodeBuiltinTypeSpecifier : CExpr → Option TypeSpecifierNonArray
  | CExpr.pathE ["glsl", "syntax", "TypeSpecifierNonArray", n] => decodeBuiltinName n
  | _ => none

/-- Top-level constructor path of an emitted Rust expression, when there is
one. -/
def topPath : CExpr → Option (List String)
  | CExpr.pathE p => some p
  | CExpr.callE p _ => some p
  | CExpr.structE p _ => some p
  | _ => none

/-- The input shape named by the spec for glsl_str: exactly one token, a
string literal, whose printed form is delimited by double quotes. -/
def isSingleOpaqueStringInput (input : List Token) : Prop :=
  ∃ s, input = [Token.lit s] ∧ s.front = '"' ∧ s.back = '"' ∧ 2 ≤ s.length

/-- Modelled from the words of claim C9, for comparison with glsl_str: on a
leading literal token of any kind, hand the parser exactly the printed form
with its first character and its last character removed, unconditionally. -/
def glsl_str_claimed (parse : String → ParseResult) (input : List Token) : ExpandResult :=
  match input.head? with
  | some (Token.lit s) =>
      match parse (sliceEnds s) with
      | ParseResult.Ok tu => ExpandResult.success (tokenize_translation_unit tu)
      | r => ExpandResult.abort ("GLSL error: " ++ parseResultRepr r)
  | x => ExpandResult.abort (incorrectInvocationMsg x)

theorem tokenize_expr_list_eq_map (l : List Expr) :
    tokenize_expr_list l = l.map tokenize_expr := by
  induction l with
  | nil => rfl
  | cons e es ih => simp only [tokenize_expr_list, List.map_cons, ih]

theorem tokenize_struct_field_list_eq_map (l : List StructFieldSpecifier) :
    tokenize_struct_field_list l = l.map tokenize_struct_field := by
  induction l with
  | nil => rfl
  | cons f fs ih => simp only [tokenize_struct_field_list, List.map_cons, ih]

theorem tokenize_statement_list_eq_map (l : List Statement) :
    tokenize_statement_list l = l.map tokenize_statement := by
  induction l with
  | nil => rfl
  | cons st sts ih => simp only [tokenize_statement_list, List.map_cons, ih]

/-- Claim C1 (code bug exhibit): round-trip fidelity fails on
preprocessor-extension nodes.  For the extension node with name
Specific GL_ARB_gpu_shader5 and behavior Require, the tokenizer emits the
name field as String::from applied to the already-built
PreprocessorExtensionName constructor; a String::from call does not denote a
PreprocessorExtensionName value, so evaluating the emitted constructor
expression does not yield the original node. -/
theorem C1_roundtrip_fails_on_extension_node :
    tokenize_preprocessor
        (Preprocessor.Extension
          { name := PreprocessorExtensionName.Specific "GL_ARB_gpu_shader5",
            behavior := some PreprocessorExtensionBehavior.Require })
      = CExpr.callE ["glsl", "syntax", "Preprocessor", "Extension"]
          [CExpr.structE ["glsl", "syntax", "PreprocessorExtension"]
            [("name", CExpr.callE ["String", "from"]
                [CExpr.callE ["glsl", "syntax", "PreprocessorExtensionName", "Specific"]
                  [CExpr.callE ["String", "from"] [CExpr.strLit "GL_ARB_gpu_shader5"]]]),
             ("behavior", CExpr.callE ["Some"]
                [CExpr.pathE ["glsl", "syntax", "PreprocessorExtensionBehavior", "Require"]])]]
    ∧ evalPreprocessor (tokenize_preprocessor
        (Preprocessor.Extension
          { name := PreprocessorExtensionName.Specific "GL_ARB_gpu_shader5",
            behavior := some PreprocessorExtensionBehavior.Require })) = none :=
  ⟨rfl, rfl⟩

/-- Claim C2 (code bug exhibit): the tokenized for-rest part does not
reconstruct a ForRestStatement.  The emitted struct literal names its second
field post, while the ForRestStatement struct field (read as r.post_expr in
the same source function) is post_expr; hence no evaluation of the emitted
constructor, whatever the evaluators of the two field payloads, produces a
ForRestStatement value. -/
theorem C2_for_rest_post_field_name_bug :
    tokenize_for_rest_statement { condition := none, post_expr := none }
      = CExpr.structE ["glsl", "syntax", "ForRestStatement"]
          [("condition", CExpr.pathE ["None"]), ("post", CExpr.pathE ["None"])]
    ∧ ∀ (fc : CExpr → Option (Option Condition)) (fp : CExpr → Option (Option Expr)),
        evalForRestWith fc fp
          (tokenize_for_rest_statement { condition := none, post_expr := none }) = none :=
  ⟨rfl, fun _ _ => rfl⟩

/-- Claim C3 (code bug exhibit): tokenizing a preprocessor-extension node
does not produce an expression that evaluates back to the node.  For the
node with name All and no behavior, the emitted name field is
String::from(glsl::syntax::PreprocessorExtensionName::All), which does not
denote a PreprocessorExtensionName, so evaluation fails even though the
behavior field round-trips. -/
theorem C3_extension_name_wrapped_in_string_from :
    tokenize_preprocessor_extension { name := PreprocessorExtensionName.All, behavior := none }
      = CExpr.structE ["glsl", "syntax", "PreprocessorExtension"]
          [("name", CExpr.callE ["String", "from"]
              [CExpr.pathE ["glsl", "syntax", "PreprocessorExtensionName", "All"]]),
           ("behavior", CExpr.pathE ["None"])]
    ∧ evalPreprocessorExtension
        (tokenize_preprocessor_extension
          { name := PreprocessorExtensionName.All, behavior := none }) = none :=
  ⟨rfl, rfl⟩

/-- Claim C4 counterexample: for the named-type specifier foo the tokenizer
does not emit a free-standing identifier token; quote! interpolates the
TypeName (a plain String) as a string literal token. -/
theorem C4_typename_not_identifier_counterexample :
    ¬ ∃ s, tokenize_type_specifier_non_array (TypeSpecifierNonArray.TypeName "foo")
        = CExpr.identE s := by
  rintro ⟨s, h⟩
  exact CExpr.noConfusion h

/-- Claim C4, amended: for every named-type specifier the tokenizer emits
the name free-standing (with no constructor wrapper), but as a string
literal token carrying a copy of the name text, not as an identifier
reference; likewise the variable-reference expression carries its
identifier as a string literal argument of the Expr::Variable constructor. -/
theorem C4_emits_string_literal_amended :
    (∀ tn, tokenize_type_specifier_non_array (TypeSpecifierNonArray.TypeName tn)
        = CExpr.strLit tn)
    ∧ (∀ i, tokenize_expr (Expr.Variable i)
        = CExpr.callE ["glsl", "syntax", "Expr", "Variable"] [CExpr.strLit i]) :=
  ⟨fun _ => rfl, fun _ => rfl⟩

/-- Claim C5: every entry of the closed built-in catalog (the 113 variants
of TypeSpecifierNonArray other than Struct and TypeName) is mapped by its
own explicit case to a fixed nullary constructor path under
glsl::syntax::TypeSpecifierNonArray naming exactly that variant: decoding
the emitted constructor name recovers the variant, so no entry is missing,
no two entries collide, and no catch-all arm is involved. -/
theorem C5_builtin_catalog_complete (t : TypeSpecifierNonArray)
    (h : isBuiltinTypeSpecifier t = true) :
    (∃ n, tokenize_type_specifier_non_array t
        = CExpr.pathE ["glsl", "syntax", "TypeSpecifierNonArray", n])
    ∧ decodeBuiltinTypeSpecifier (tokenize_type_specifier_non_array t) = some t := by
  cases t <;> first
    | exact Bool.noConfusion h
    | exact ⟨⟨_, rfl⟩, rfl⟩

/-- Witness for C5_builtin_catalog_complete at the Void catalog entry. -/
theorem C5_builtin_catalog_complete_witness :
    isBuiltinTypeSpecifier TypeSpecifierNonArray.Void = true
    ∧ ((∃ n, tokenize_type_specifier_non_array TypeSpecifierNonArray.Void
          = CExpr.pathE ["glsl", "syntax", "TypeSpecifierNonArray", n])
       ∧ decodeBuiltinTypeSpecifier
           (tokenize_type_specifier_non_array TypeSpecifierNonArray.Void)
         = some TypeSpecifierNonArray.Void) :=
  ⟨rfl, C5_builtin_catalog_complete TypeSpecifierNonArray.Void rfl⟩

/-- Claim C6: every sequence-valued field is emitted as the elementwise map
of the corresponding tokenizer over the input sequence, in input order, for
inputs of every length: the translation unit, the function parameter list,
the call argument list, the compound-statement list, the declarator tail,
the qualifier list, the struct field list and the struct-field identifier
list. -/
theorem C6_order_preservation :
    (∀ tu : TranslationUnit,
        tokenize_translation_unit tu = CExpr.vecE (tu.map tokenize_external_declaration))
    ∧ (∀ fp : FunctionPrototype,
        tokenize_function_prototype fp
          = CExpr.structE ["glsl", "syntax", "FunctionPrototype"]
              [("ty", tokenize_fully_specified_type fp.ty),
               ("name", CExpr.callE ["String", "from"] [CExpr.strLit fp.name]),
               ("parameters",
                CExpr.vecE (fp.parameters.map tokenize_function_parameter_declaration))])
    ∧ (∀ fi args, tokenize_expr (Expr.FunCall fi args)
        = CExpr.callE ["glsl", "syntax", "Expr", "FunCall"]
            [tokenize_function_identifier fi, CExpr.vecE (args.map tokenize_expr)])
    ∧ (∀ l : List Statement, tokenize_compound_statement (CompoundStatement.mk l)
        = CExpr.structE ["glsl", "syntax", "CompoundStatement"]
            [("statement_list", CExpr.vecE (l.map tokenize_statement))])
    ∧ (∀ i : InitDeclaratorList, tokenize_init_declarator_list i
        = CExpr.structE ["glsl", "syntax", "InitDeclaratorList"]
            [("head", tokenize_single_declaration i.head),
             ("tail", CExpr.vecE (i.tail.map tokenize_single_declaration_no_type))])
    ∧ (∀ q : TypeQualifier, tokenize_type_qualifier q
        = CExpr.structE ["glsl", "syntax", "TypeQualifier"]
            [("qualifiers", CExpr.vecE (q.qualifiers.map tokenize_type_qualifier_spec))])
    ∧ (∀ name fields, tokenize_struct_non_declaration (StructSpecifier.mk name fields)
        = CExpr.structE ["glsl", "syntax", "StructSpecifier"]
            [("name", CExpr.callE ["String", "from"] [CExpr.strLit name]),
             ("fields", CExpr.vecE (fields.map tokenize_struct_field))])
    ∧ (∀ qual ty ids, tokenize_struct_field (StructFieldSpecifier.mk qual ty ids)
        = CExpr.structE ["glsl", "syntax", "StructFieldSpecifier"]
            [("qualifier", quoteOpt (qual.map tokenize_type_qualifier)),
             ("ty", tokenize_type_specifier ty),
             ("identifiers",
              CExpr.vecE (ids.map fun ab => tokenize_arrayed_identifier ab.1 ab.2))]) := by
  refine ⟨fun tu => rfl, fun fp => rfl, fun fi args => ?_, fun l => ?_, fun i => rfl,
    fun q => rfl, fun name fields => ?_, fun qual ty ids => rfl⟩
  · simp only [tokenize_expr, tokenize_expr_list_eq_map]
  · simp only [tokenize_compound_statement, tokenize_statement_list_eq_map]
  · simp only [tokenize_struct_non_declaration, tokenize_struct_field_list_eq_map]

/-- Claim C7: whenever the external parser reports a failure, both entry
surfaces abort the build with a message that contains the parser's
diagnostic, and neither emits any output tree. -/
theorem C7_parse_failure_aborts_build (parse : String → ParseResult) (input : List Token)
    (d : String) :
    (parse (formatTokens input) = ParseResult.Fail d →
       (∃ pre post, glsl parse input = ExpandResult.abort (pre ++ d ++ post))
       ∧ ∀ c, glsl parse input ≠ ExpandResult.success c)
    ∧ (∀ s rest, input = Token.lit s :: rest → 2 ≤ s.length →
         parse (sliceEnds s) = ParseResult.Fail d →
         (∃ pre post, glsl_str parse input = ExpandResult.abort (pre ++ d ++ post))
         ∧ ∀ c, glsl_str parse input ≠ ExpandResult.success c) := by
  constructor
  · intro h
    have he : glsl parse input
        = ExpandResult.abort ("GLSL error: " ++ ("Err(" ++ d ++ ")")) := by
      simp [glsl, h, parseResultRepr]
    constructor
    · refine ⟨"GLSL error: " ++ "Err(", ")", ?_⟩
      rw [he]
      congr 1
    · intro c hc
      rw [he] at hc
      exact ExpandResult.noConfusion hc
  · intro s rest hin hlen h
    have he : glsl_str parse input
        = ExpandResult.abort ("GLSL error: " ++ ("Err(" ++ d ++ ")")) := by
      subst hin
      simp [glsl_str, if_pos hlen, h, parseResultRepr]
    constructor
    · refine ⟨"GLSL error: " ++ "Err(", ")", ?_⟩
      rw [he]
      congr 1
    · intro c hc
      rw [he] at hc
      exact ExpandResult.noConfusion hc

/-- Witness for C7_parse_failure_aborts_build: a parser that always fails
with diagnostic oops makes glsl abort on the empty input and glsl_str abort
on a single three-character string literal, in both cases with the
diagnostic inside the message. -/
theorem C7_parse_failure_aborts_build_witness :
    (∃ pre post, glsl (fun _ => ParseResult.Fail "oops") []
        = ExpandResult.abort (pre ++ "oops" ++ post))
    ∧ (∃ pre post, glsl_str (fun _ => ParseResult.Fail "oops") [Token.lit "\"x\""]
        = ExpandResult.abort (pre ++ "oops" ++ post)) :=
  ⟨((C7_parse_failure_aborts_build (fun _ => ParseResult.Fail "oops") [] "oops").1 rfl).1,
   ((C7_parse_failure_aborts_build (fun _ => ParseResult.Fail "oops")
       [Token.lit "\"x\""] "oops").2 "\"x\"" [] rfl (by decide) rfl).1⟩

/-- Claim C8 counterexample: an invocation whose input is not exactly one
string-literal token — here a string literal followed by a stray identifier
— is not aborted: the driver looks only at the first token, parses, and
succeeds (shown with a parser that accepts the fragment), so no abort with
the expected-shape message occurs. -/
theorem C8_surplus_tokens_accepted_counterexample :
    ¬ isSingleOpaqueStringInput [Token.lit "\"int x;\"", Token.ident "junk"]
    ∧ glsl_str (fun _ => ParseResult.Ok [])
        [Token.lit "\"int x;\"", Token.ident "junk"]
        = ExpandResult.success (tokenize_translation_unit [])
    ∧ ∀ m, glsl_str (fun _ => ParseResult.Ok [])
        [Token.lit "\"int x;\"", Token.ident "junk"] ≠ ExpandResult.abort m := by
  refine ⟨?_, rfl, ?_⟩
  · rintro ⟨s, h, -⟩
    simp at h
  · intro m hm
    exact ExpandResult.noConfusion hm

/-- Claim C8, amended: the driver examines only the first input token.  An
empty input or a non-literal first token aborts with the message naming the
expected shape; a first token that is a literal of any kind is processed
with all following tokens ignored: the driver slices one character from each
end of its printed form (aborting on a shorter literal) and hands the result
to the parser. -/
theorem C8_first_token_literal_amended (parse : String → ParseResult) :
    glsl_str parse [] = ExpandResult.abort (incorrectInvocationMsg none)
    ∧ (∀ t rest, (∀ s, t ≠ Token.lit s) →
        glsl_str parse (t :: rest) = ExpandResult.abort (incorrectInvocationMsg (some t)))
    ∧ (∀ s rest, glsl_str parse (Token.lit s :: rest) = glsl_str parse [Token.lit s])
    ∧ (∀ s rest, s.length < 2 →
        glsl_str parse (Token.lit s :: rest) = ExpandResult.abort sliceIndexMsg)
    ∧ (∀ s rest, 2 ≤ s.length →
        glsl_str parse (Token.lit s :: rest)
          = match parse (sliceEnds s) with
            | ParseResult.Ok tu => ExpandResult.success (tokenize_translation_unit tu)
            | r => ExpandResult.abort ("GLSL error: " ++ parseResultRepr r)) := by
  refine ⟨rfl, ?_, ?_, ?_, ?_⟩
  · intro t rest hne
    cases t with
    | lit s => exact absurd rfl (hne s)
    | ident s => rfl
    | punct s => rfl
    | group s => rfl
  · intro s rest
    rfl
  · intro s rest hlt
    simp [glsl_str, Nat.not_le.mpr hlt]
  · intro s rest hle
    simp [glsl_str, if_pos hle]

/-- Witness for C8_first_token_literal_amended: the empty input and a
leading identifier abort with the expected-shape message, and a leading
one-character literal aborts on the slice. -/
theorem C8_first_token_literal_amended_witness :
    glsl_str (fun _ => ParseResult.Fail "e") []
        = ExpandResult.abort (incorrectInvocationMsg none)
    ∧ glsl_str (fun _ => ParseResult.Fail "e") [Token.ident "a"]
        = ExpandResult.abort (incorrectInvocationMsg (some (Token.ident "a")))
    ∧ glsl_str (fun _ => ParseResult.Fail "e") [Token.lit "4"]
        = ExpandResult.abort sliceIndexMsg :=
  ⟨(C8_first_token_literal_amended (fun _ => ParseResult.Fail "e")).1,
   (C8_first_token_literal_amended (fun _ => ParseResult.Fail "e")).2.1 (Token.ident "a") []
     (fun s h => Token.noConfusion h),
   (C8_first_token_literal_amended (fun _ => ParseResult.Fail "e")).2.2.2.1 "4" [] (by decide)⟩

/-- Claim C9 counterexample: on the one-character literal 4 the driver does
not hand the parser the printed form with first and last character removed
(which would be the empty string); the slice aborts first, so glsl_str
differs from the behavior the claim describes. -/
theorem C9_one_char_literal_counterexample :
    glsl_str (fun s => ParseResult.Fail s) [Token.lit "4"] = ExpandResult.abort sliceIndexMsg
    ∧ glsl_str (fun s => ParseResult.Fail s) [Token.lit "4"]
        ≠ glsl_str_claimed (fun s => ParseResult.Fail s) [Token.lit "4"] := by
  refine ⟨rfl, ?_⟩
  intro h
  have h2 : ExpandResult.abort sliceIndexMsg
      = ExpandResult.abort
          ("GLSL error: " ++ parseResultRepr (ParseResult.Fail (sliceEnds "4"))) := h
  injection h2 with hmsg
  exact absurd hmsg (by decide)

/-- Claim C9, amended: for every leading literal token whose printed form
has at least two characters the driver behaves exactly as the claim
describes, handing the parser the printed form with one character removed
from each end, regardless of the literal's kind; a one-character literal
instead aborts in the slice. -/
theorem C9_sliced_text_amended (parse : String → ParseResult) (s : String)
    (rest : List Token) (h : 2 ≤ s.length) :
    glsl_str parse (Token.lit s :: rest) = glsl_str_claimed parse (Token.lit s :: rest) := by
  simp [glsl_str, glsl_str_claimed, if_pos h]

/-- Witness for C9_sliced_text_amended at the two-character non-string
literal 12. -/
theorem C9_sliced_text_amended_witness :
    2 ≤ String.length "12"
    ∧ glsl_str (fun t => ParseResult.Fail t) [Token.lit "12"]
        = glsl_str_claimed (fun t => ParseResult.Fail t) [Token.lit "12"] :=
  ⟨by decide, C9_sliced_text_amended (fun t => ParseResult.Fail t) "12" [] (by decide)⟩

/-- Claim C10 counterexample: the constructor emitted for the continue jump
statement is the unqualified path JumpStatement::Continue, which is not
rooted at glsl::syntax. -/
theorem C10_jump_unqualified_counterexample :
    topPath (tokenize_jump_statement JumpStatement.Continue)
      = some ["JumpStatement", "Continue"]
    ∧ ¬ ∀ p, topPath (tokenize_jump_statement JumpStatement.Continue) = some p →
          p.take 2 = ["glsl", "syntax"] := by
  refine ⟨rfl, ?_⟩
  intro hall
  have h := hall ["JumpStatement", "Continue"] rfl
  simp at h

/-- Claim C10, amended: in the three cited tokenizers, the four
jump-statement variants, the Or assignment operator and the Subroutine
storage qualifier are emitted with unqualified constructor paths, while
every other assignment-operator and storage-qualifier variant is emitted
fully qualified under glsl::syntax. -/
theorem C10_qualification_exceptions_amended :
    tokenize_jump_statement JumpStatement.Continue = CExpr.pathE ["JumpStatement", "Continue"]
    ∧ tokenize_jump_statement JumpStatement.Break = CExpr.pathE ["JumpStatement", "Break"]
    ∧ tokenize_jump_statement JumpStatement.Discard = CExpr.pathE ["JumpStatement", "Discard"]
    ∧ (∀ e, tokenize_jump_statement (JumpStatement.Return e)
        = CExpr.callE ["JumpStatement", "Return"] [tokenize_expr e])
    ∧ tokenize_assignment_op AssignmentOp.Or = CExpr.pathE ["AssignmentOp", "Or"]
    ∧ (∀ op, op ≠ AssignmentOp.Or →
        ∃ n, tokenize_assignment_op op = CExpr.pathE ["glsl", "syntax", "AssignmentOp", n])
    ∧ (∀ ns, tokenize_storage_qualifier (StorageQualifier.Subroutine ns)
        = CExpr.callE ["StorageQualifier", "Subroutine"]
            [CExpr.vecE (ns.map fun n => CExpr.callE ["String", "from"] [CExpr.strLit n])])
    ∧ (∀ q, (∀ ns, q ≠ StorageQualifier.Subroutine ns) →
        ∃ n, tokenize_storage_qualifier q
          = CExpr.pathE ["glsl", "syntax", "StorageQualifier", n]) := by
  refine ⟨rfl, rfl, rfl, fun e => rfl, rfl, ?_, fun ns => rfl, ?_⟩
  · intro op hne
    cases op <;> first
      | exact absurd rfl hne
      | exact ⟨_, rfl⟩
  · intro q hne
    cases q with
    | Subroutine ns => exact absurd rfl (hne ns)
    | _ => exact ⟨_, rfl⟩

/-- Witness for C10_qualification_exceptions_amended at the Add assignment
operator and the Uniform storage qualifier. -/
theorem C10_qualification_exceptions_amended_witness :
    (∃ n, tokenize_assignment_op AssignmentOp.Add
        = CExpr.pathE ["glsl", "syntax", "AssignmentOp", n])
    ∧ (∃ n, tokenize_storage_qualifier StorageQualifier.Uniform
        = CExpr.pathE ["glsl", "syntax", "StorageQualifier", n]) :=
  ⟨C10_qualification_exceptions_amended.2.2.2.2.2.1 AssignmentOp.Add (fun h => by cases h),
   C10_qualification_exceptions_amended.2.2.2.2.2.2.2 StorageQualifier.Uniform
     (fun ns h => by cases h)⟩

end Glsl
